import Mathlib

/-!
Verification development for the single-header C++ API profiler
(src/include/profiler.h).  The Unix branch of the header (the branch the
cited lines 73-86 and 166-200 compile to on this platform) is embedded
shallowly: `timespec` values become pairs of integers, the destructor
`~APIProfiler` and `APIProfiler::Flush` become pure state-passing
functions, the C `long long` division `/ 1000LL` becomes `Int.tdiv`
(truncation toward zero, as in C), and the `printf` call becomes an
emitted `OutputLine` value rendered to text by `renderLine`.

Modelling notes, recorded for fidelity:
* the source converts `tv_sec * 1e9 + tv_nsec` through `double`; that
  conversion is exact for every timestamp whose nanosecond count fits in
  53 bits (about 104 days of monotonic-clock uptime) and is modelled
  here as exact integer arithmetic;
* the two `double` arguments of `printf` are the accumulator (an exact
  integer) and the elapsed nanosecond count divided by `1000.0`; the
  emitted `OutputLine` stores the exact integer data (`measured`,
  `intervalNanos`), and the rational values the `double`s stand for are
  recovered by the views `OutputLine.intervalQ` and `OutputLine.percentQ`;
* `printf` float rendering (`%.0f`, `%.1f`) rounds to nearest; it is
  modelled by `roundOfDiv`, which is `round` (half-up) of the exact
  rational quotient.
-/

/-- POSIX `timespec`: seconds and nanoseconds, both signed integral types
in C (`time_t` and `long`). -/
structure Timespec where
  tv_sec : Int
  tv_nsec : Int
deriving DecidableEq, Repr

/-- The nanosecond count `tv_sec * 1e9 + tv_nsec` the destructor computes
(profiler.h lines 77-79). -/
def Timespec.toNanoSec (t : Timespec) : Int :=
  t.tv_sec * 1000000000 + t.tv_nsec

/-- A well-formed timestamp produced by `clock_gettime(CLOCK_MONOTONIC)`:
non-negative seconds, nanoseconds normalised into `[0, 1e9)`. -/
def Timespec.WF (t : Timespec) : Prop :=
  0 ≤ t.tv_sec ∧ 0 ≤ t.tv_nsec ∧ t.tv_nsec < 1000000000

instance (t : Timespec) : Decidable t.WF := by
  unfold Timespec.WF; infer_instance

namespace APIProfiler

/-- `APIProfiler::ThreadInfo`, Unix variant (profiler.h lines 23-34). -/
structure ThreadInfo where
  lastReportTime : Timespec
  accumulator : Int
  hitCount : Int
  name : String
deriving DecidableEq, Repr

/-- The record a `DEFINE_API_PROFILER(name)` expansion creates
(profiler.h lines 103-106): all-zero counters and the zero sentinel
timestamp. -/
def initInfo (name : String) : ThreadInfo :=
  { lastReportTime := ⟨0, 0⟩, accumulator := 0, hitCount := 0, name := name }

/-- `APIProfiler_ReportIntervalSecs` (profiler.h line 168): the fixed
1-real-second reporting target. -/
def APIProfiler_ReportIntervalSecs : ℚ := 1

/-- The value `static_cast<long long>(1e6 * APIProfiler_ReportIntervalSecs)`
assigned to `s_reportInterval` on its first initialization (line 175):
1e6 microseconds per second times the 1-second target.  The product
`1e6 * 1.0` is the exact double `1000000.0` and the cast truncates it to
the integer 1000000; `computedReportInterval_spec` below records that
this integer is exactly `1e6 * APIProfiler_ReportIntervalSecs`. -/
def computedReportInterval : Int := 1000000

/-- One line of `printf` output (profiler.h lines 189-195), as the exact
integer data behind the arguments of the call: `measured` is the
accumulator (`double measured` is exactly this integer), `intervalNanos`
the elapsed nanosecond count whose division by `1000.0` gives
`double interval`. -/
structure OutputLine where
  tid : Int
  name : String
  measured : Int
  intervalNanos : Int
  hitCount : Int
deriving DecidableEq, Repr

/-- The exact rational value of the `double interval` argument:
elapsed nanoseconds divided by 1000 (microseconds). -/
def OutputLine.intervalQ (l : OutputLine) : ℚ :=
  (l.intervalNanos : ℚ) / 1000

/-- The exact rational value of the `double measured` argument. -/
def OutputLine.measuredQ (l : OutputLine) : ℚ :=
  (l.measured : ℚ)

/-- The exact rational value of the percentage argument
`100.0 * measured / interval` (profiler.h line 194). -/
def OutputLine.percentQ (l : OutputLine) : ℚ :=
  100 * l.measuredQ / l.intervalQ

/-- The state a call to `Flush` returns: the updated record, the (possibly
freshly initialized) global `s_reportInterval`, and the emitted lines. -/
structure FlushResult where
  info : ThreadInfo
  reportInterval : Int
  output : List OutputLine
deriving DecidableEq, Repr

/-- `APIProfiler::Flush(timespec end)`, Unix variant (profiler.h lines
171-200).  `m_start` is the guard's captured start, `tid` the value of
`pthread_self()`, `ri` the global `s_reportInterval` at entry. -/
def Flush (m_start : Timespec) (tid : Int) (info : ThreadInfo) (ri : Int)
    (e : Timespec) : FlushResult :=
  -- lines 173-176: lazy first-flush initialization of s_reportInterval
  let ri := if ri = 0 then computedReportInterval else ri
  -- lines 178-182: first-call sentinel guard, returns before printing
  if info.lastReportTime.tv_sec = 0 ∧ info.lastReportTime.tv_nsec = 0 then
    { info := { info with lastReportTime := m_start }, reportInterval := ri, output := [] }
  else
    -- lines 184-195: compute interval/measured and emit one line
    let intervalNanos : Int :=
      (e.tv_sec - info.lastReportTime.tv_sec) * 1000000000 +
        (e.tv_nsec - info.lastReportTime.tv_nsec)
    let line : OutputLine :=
      { tid := tid, name := info.name, measured := info.accumulator,
        intervalNanos := intervalNanos, hitCount := info.hitCount }
    -- lines 197-199: reset
    { info := { info with lastReportTime := e, accumulator := 0, hitCount := 0 },
      reportInterval := ri, output := [line] }

/-- The result of one guard destruction `~APIProfiler`. -/
structure DtorResult where
  info : ThreadInfo
  reportInterval : Int
  flushed : Bool
  output : List OutputLine
deriving DecidableEq, Repr

/-- `~APIProfiler()`, Unix variant (profiler.h lines 64-87): computes the
start/end/last-report nanosecond counts, adds the truncated microsecond
delta to the accumulator, increments the hit count, and calls `Flush`
when the truncated microsecond gap since the last report exceeds
`s_reportInterval`.  `Int.tdiv` is C's truncating `/ 1000LL`. -/
def dtor (m_start : Timespec) (tid : Int) (info : ThreadInfo) (ri : Int)
    (e : Timespec) : DtorResult :=
  let startNanoSec := m_start.toNanoSec
  let endNanoSec := e.toNanoSec
  let lastReportNanoSec := info.lastReportTime.toNanoSec
  let info1 : ThreadInfo :=
    { info with accumulator := info.accumulator + (endNanoSec - startNanoSec).tdiv 1000,
                hitCount := info.hitCount + 1 }
  if (endNanoSec - lastReportNanoSec).tdiv 1000 > ri then
    let r := Flush m_start tid info1 ri e
    { info := r.info, reportInterval := r.reportInterval, flushed := true, output := r.output }
  else
    { info := info1, reportInterval := ri, flushed := false, output := [] }

/-- The record as updated by the accumulate/hit part of the destructor
(profiler.h lines 81-82), before the flush check. -/
def accumUpdate (ms : Timespec) (info : ThreadInfo) (e : Timespec) : ThreadInfo :=
  { info with accumulator := info.accumulator + (e.toNanoSec - ms.toNanoSec).tdiv 1000,
              hitCount := info.hitCount + 1 }

end APIProfiler

open APIProfiler

/-- One scope guard's lifetime: the timestamp captured by the constructor
(line 59) and the timestamp captured at destruction (line 75). -/
structure GuardEvent where
  start : Timespec
  stop : Timespec
deriving DecidableEq, Repr

/-- The microsecond delta one guard destruction adds to the accumulator:
`(endNanoSec - startNanoSec) / 1000LL` (profiler.h line 81). -/
def GuardEvent.delta (g : GuardEvent) : Int :=
  (g.stop.toNanoSec - g.start.toNanoSec).tdiv 1000

/-- A well-formed guard event: both timestamps well formed, and the stop
not before the start (CLOCK_MONOTONIC never runs backwards). -/
def GuardEvent.WF (g : GuardEvent) : Prop :=
  g.start.WF ∧ g.stop.WF ∧ g.start.toNanoSec ≤ g.stop.toNanoSec

instance (g : GuardEvent) : Decidable g.WF := by
  unfold GuardEvent.WF; infer_instance

/-- The per-record profiler state between guard events: the thread's
record and the global `s_reportInterval`. -/
structure PState where
  info : ThreadInfo
  reportInterval : Int
deriving DecidableEq, Repr

/-- The state of a freshly defined record in a fresh process:
`DEFINE_API_PROFILER` zeros plus the uninitialized `s_reportInterval = 0`
(profiler.h lines 104-106 and 169). -/
def initState (name : String) : PState :=
  { info := initInfo name, reportInterval := 0 }

/-- One guard construction/destruction applied to a state. -/
def step (tid : Int) (s : PState) (g : GuardEvent) : DtorResult :=
  dtor g.start tid s.info s.reportInterval g.stop

/-- The state after one guard construction/destruction. -/
def stepState (tid : Int) (s : PState) (g : GuardEvent) : PState :=
  { info := (step tid s g).info, reportInterval := (step tid s g).reportInterval }

/-- Run a sequence of guard events, collecting all emitted output. -/
def runGuards (tid : Int) : List GuardEvent → PState → PState × List OutputLine
  | [], s => (s, [])
  | g :: gs, s =>
    ((runGuards tid gs (stepState tid s g)).1,
      (step tid s g).output ++ (runGuards tid gs (stepState tid s g)).2)

/-- The states strictly after each event of a run. -/
def trailStates (tid : Int) : List GuardEvent → PState → List PState
  | [], _ => []
  | g :: gs, s => stepState tid s g :: trailStates tid gs (stepState tid s g)

/-- Every state a run passes through, the initial one included. -/
def statesOf (tid : Int) (gs : List GuardEvent) (s : PState) : List PState :=
  s :: trailStates tid gs s

/-- Decidable check that no event of a run triggers `Flush`. -/
def noFlushRun (tid : Int) : List GuardEvent → PState → Bool
  | [], _ => true
  | g :: gs, s => !(step tid s g).flushed && noFlushRun tid gs (stepState tid s g)

/-- Invariant maintained along any run from a fresh process: the global
`s_reportInterval` is either still uninitialized (0) or holds the
computed value 1000000, and once a record has left its sentinel state the
global has necessarily been initialized (the only writer of
`lastReportTime` is `Flush`, which initializes the global first). -/
def RIInv (s : PState) : Prop :=
  (s.reportInterval = 0 ∨ s.reportInterval = 1000000) ∧
  (¬(s.info.lastReportTime.tv_sec = 0 ∧ s.info.lastReportTime.tv_nsec = 0) →
    s.reportInterval = 1000000)

/-- Rounded integer quotient: the value of rounding `num / den` to the
nearest integer (half rounded up), computed with floor division; this
models `printf`'s rounding of a field to the requested precision (printf
itself rounds the already-double value half-to-even; for all quotients
whose distance to the half-point exceeds the double's rounding error the
two agree). -/
def roundOfDiv (num den : Int) : Int := (2 * num + den) / (2 * den)

/-- The `%.0f` rendering of the exact quotient num/den. -/
def fmtF0 (num den : Int) : String := toString (roundOfDiv num den)

/-- The `%.1f` rendering of the exact quotient num/den: one digit after
the decimal point. -/
def fmtF1 (num den : Int) : String :=
  toString (roundOfDiv (10 * num) den / 10) ++ "." ++
    toString ((roundOfDiv (10 * num) den % 10).natAbs)

/-- The text of the `printf` call (profiler.h lines 189-195):
`"TID %ld time spent in \"%s\": %.0f/%.0f microsec %.1f%% %lldx\n"`
applied to `pthread_self()`, the record name, `measured`, `interval`,
`100.0 * measured / interval` and the hit count.  `measured` is an
integer-valued double, so `%.0f` prints it verbatim; `interval` is
`intervalNanos / 1000.0` and the percentage is
`100000 * measured / intervalNanos`. -/
def renderLine (l : OutputLine) : String :=
  "TID " ++ toString l.tid ++ " time spent in \"" ++ l.name ++ "\": " ++
    toString l.measured ++ "/" ++ fmtF0 l.intervalNanos 1000 ++ " microsec " ++
    fmtF1 (100000 * l.measured) l.intervalNanos ++ "% " ++
    toString l.hitCount ++ "x\n"

/-- The three preprocessor constructs of the declaration/measurement
surface (profiler.h lines 95-118): `DECLARE_API_PROFILER(name)`,
`DEFINE_API_PROFILER(name)` and `API_PROFILER(name)` (the latter carries
the guard event its scope produces when the profiler is enabled). -/
inductive Construct where
  | declareRegion (name : String)
  | defineRegion (name : String)
  | profileRegion (name : String) (g : GuardEvent)
deriving DecidableEq, Repr

/-- The runtime effects the enabled macro expansions produce: an extern
declaration (no runtime effect), a thread-local record definition, and a
scope-guard measurement. -/
inductive RtAction where
  | declareR (name : String)
  | defineR (name : String)
  | measure (name : String) (g : GuardEvent)
deriving DecidableEq, Repr

/-- Macro expansion as a function of the `ENABLE_API_PROFILER` flag:
when the flag is set, each construct expands to its runtime action
(profiler.h lines 95-112); when it is clear, every macro expands to
nothing at all (profiler.h lines 114-118). -/
def expandConstruct : Bool → Construct → List RtAction
  | true, .declareRegion n => [.declareR n]
  | true, .defineRegion n => [.defineR n]
  | true, .profileRegion n g => [.measure n g]
  | false, _ => []

/-- The observable state of one thread of the process: its named
thread-local records plus the global `s_reportInterval`. -/
structure SysState where
  records : List (String × ThreadInfo)
  reportInterval : Int
deriving DecidableEq, Repr

/-- Execute one runtime action: a declaration does nothing, a definition
brings the zero-initialized record into scope, a measurement runs the
guard destructor on the named record (if defined) and collects its
output. -/
def runAction (tid : Int) (s : SysState) : RtAction → SysState × List OutputLine
  | .declareR _ => (s, [])
  | .defineR n => (⟨(n, initInfo n) :: s.records, s.reportInterval⟩, [])
  | .measure n g =>
    match s.records.lookup n with
    | none => (s, [])
    | some info =>
      let r := dtor g.start tid info s.reportInterval g.stop
      (⟨s.records.map (fun p => if p.1 = n then (n, r.info) else p), r.reportInterval⟩,
        r.output)

/-- Execute a list of runtime actions in order, collecting all output. -/
def runActions (tid : Int) : List RtAction → SysState → SysState × List OutputLine
  | [], s => (s, [])
  | a :: as_, s =>
    ((runActions tid as_ (runAction tid s a).1).1,
      (runAction tid s a).2 ++ (runActions tid as_ (runAction tid s a).1).2)

/-- A whole instrumented program: expand every construct under the flag,
then run the resulting actions. -/
def runProgram (enabled : Bool) (tid : Int) (prog : List Construct) (s : SysState) :
    SysState × List OutputLine :=
  runActions tid (prog.map (expandConstruct enabled)).flatten s

/-! ### Helper lemmas about the truncating division and the two branches -/

theorem tdiv_1000_nonpos {n : Int} (h : n ≤ 0) : n.tdiv 1000 ≤ 0 := by
  have h0 : (0 : Int) ≤ -n := by omega
  have h1 : 0 ≤ (-n).tdiv 1000 := Int.tdiv_nonneg h0 (by norm_num)
  rw [Int.neg_tdiv] at h1
  omega

theorem le_of_tdiv_1000_gt {n ri : Int} (hri : 0 ≤ ri) (h : ri < n.tdiv 1000) :
    1000 * (ri + 1) ≤ n := by
  have hn : 0 ≤ n := by
    by_contra hc
    have := tdiv_1000_nonpos (n := n) (by omega)
    omega
  rw [Int.tdiv_eq_ediv hn (by norm_num)] at h
  omega

theorem tdiv_1000_eq_ediv {n : Int} (h : 0 ≤ n) : n.tdiv 1000 = n / 1000 :=
  Int.tdiv_eq_ediv h (by norm_num)

theorem computedReportInterval_spec :
    (computedReportInterval : ℚ) = 1000000 * APIProfiler_ReportIntervalSecs := by
  norm_num [computedReportInterval, APIProfiler_ReportIntervalSecs]

theorem Flush_sentinel (ms : Timespec) (tid : Int) (info : ThreadInfo) (ri : Int)
    (e : Timespec) (h : info.lastReportTime.tv_sec = 0 ∧ info.lastReportTime.tv_nsec = 0) :
    Flush ms tid info ri e =
      { info := { info with lastReportTime := ms },
        reportInterval := if ri = 0 then 1000000 else ri, output := [] } := by
  unfold Flush computedReportInterval
  rw [if_pos h]

theorem Flush_emit (ms : Timespec) (tid : Int) (info : ThreadInfo) (ri : Int)
    (e : Timespec) (h : ¬(info.lastReportTime.tv_sec = 0 ∧ info.lastReportTime.tv_nsec = 0)) :
    Flush ms tid info ri e =
      { info := { info with lastReportTime := e, accumulator := 0, hitCount := 0 },
        reportInterval := if ri = 0 then 1000000 else ri,
        output := [{ tid := tid, name := info.name, measured := info.accumulator,
                     intervalNanos := (e.tv_sec - info.lastReportTime.tv_sec) * 1000000000 +
                       (e.tv_nsec - info.lastReportTime.tv_nsec),
                     hitCount := info.hitCount }] } := by
  unfold Flush computedReportInterval
  rw [if_neg h]

theorem dtor_eq (ms : Timespec) (tid : Int) (info : ThreadInfo) (ri : Int) (e : Timespec) :
    dtor ms tid info ri e =
      if (e.toNanoSec - info.lastReportTime.toNanoSec).tdiv 1000 > ri then
        { info := (Flush ms tid (accumUpdate ms info e) ri e).info,
          reportInterval := (Flush ms tid (accumUpdate ms info e) ri e).reportInterval,
          flushed := true,
          output := (Flush ms tid (accumUpdate ms info e) ri e).output }
      else
        { info := accumUpdate ms info e, reportInterval := ri, flushed := false, output := [] } :=
  rfl

theorem dtor_not_flushed (ms : Timespec) (tid : Int) (info : ThreadInfo) (ri : Int)
    (e : Timespec) (h : ¬((e.toNanoSec - info.lastReportTime.toNanoSec).tdiv 1000 > ri)) :
    dtor ms tid info ri e =
      { info := accumUpdate ms info e, reportInterval := ri, flushed := false, output := [] } := by
  rw [dtor_eq, if_neg h]

theorem dtor_flushed (ms : Timespec) (tid : Int) (info : ThreadInfo) (ri : Int)
    (e : Timespec) (h : (e.toNanoSec - info.lastReportTime.toNanoSec).tdiv 1000 > ri) :
    dtor ms tid info ri e =
      { info := (Flush ms tid (accumUpdate ms info e) ri e).info,
        reportInterval := (Flush ms tid (accumUpdate ms info e) ri e).reportInterval,
        flushed := true,
        output := (Flush ms tid (accumUpdate ms info e) ri e).output } := by
  rw [dtor_eq, if_pos h]

/-! ### The process-wide invariant on `s_reportInterval` -/

theorem RIInv_init (name : String) : RIInv (initState name) := by
  constructor
  · left; rfl
  · intro h
    exact absurd ⟨rfl, rfl⟩ h

theorem RIInv_step (tid : Int) (s : PState) (g : GuardEvent) (h : RIInv s) :
    RIInv (stepState tid s g) := by
  obtain ⟨hri, hsen⟩ := h
  unfold stepState step
  rw [dtor_eq]
  split
  · by_cases hs : (accumUpdate g.start s.info g.stop).lastReportTime.tv_sec = 0 ∧
        (accumUpdate g.start s.info g.stop).lastReportTime.tv_nsec = 0
    · rw [Flush_sentinel _ _ _ _ _ hs]
      constructor
      · dsimp only
        split
        · right; rfl
        · exact hri
      · intro _
        dsimp only
        rcases hri with h0 | h6
        · simp [h0]
        · rw [if_neg (by omega)]; exact h6
    · rw [Flush_emit _ _ _ _ _ hs]
      constructor
      · dsimp only
        split
        · right; rfl
        · exact hri
      · intro _
        dsimp only
        rcases hri with h0 | h6
        · simp [h0]
        · rw [if_neg (by omega)]; exact h6
  · exact ⟨hri, fun hne => hsen hne⟩

theorem RIInv_run (tid : Int) (gs : List GuardEvent) (s : PState) (h : RIInv s) :
    RIInv (runGuards tid gs s).1 := by
  induction gs generalizing s with
  | nil => exact h
  | cons g gs ih =>
    unfold runGuards
    exact ih (stepState tid s g) (RIInv_step tid s g h)

/-! ### Claim theorems -/

/-- C2: a guard destruction invokes `Flush` if and only if the elapsed
microseconds from the record's `lastReportTime` to the destruction
timestamp `e` (the code's truncated `(endNanoSec - lastReportNanoSec) /
1000LL`) exceed the current `s_reportInterval`; in particular when that
elapsed value does not exceed the interval, the destruction emits no
output. -/
theorem dtor_flush_trigger_iff (ms : Timespec) (tid : Int) (info : ThreadInfo) (ri : Int)
    (e : Timespec) :
    ((dtor ms tid info ri e).flushed = true ↔
      ri < (e.toNanoSec - info.lastReportTime.toNanoSec).tdiv 1000) ∧
    ((e.toNanoSec - info.lastReportTime.toNanoSec).tdiv 1000 ≤ ri →
      (dtor ms tid info ri e).output = []) := by
  constructor
  · rw [dtor_eq]
    split
    · next h => exact iff_of_true rfl h
    · next h => exact iff_of_false (by simp) h
  · intro hle
    rw [dtor_not_flushed _ _ _ _ _ (by omega)]

/-- C10: on the Unix path the destructor adds exactly
`floor(elapsedNanoseconds / 1000)` to the accumulator (the record passed
to the flush check is `accumUpdate`, and a destruction that does not
flush returns exactly it); a guard spanning fewer than 1000 nanoseconds
contributes 0 while still incrementing the hit count. -/
theorem dtor_adds_floor_micro (ms : Timespec) (tid : Int) (info : ThreadInfo)
    (ri : Int) (e : Timespec) (h : ms.toNanoSec ≤ e.toNanoSec) :
    (accumUpdate ms info e).accumulator =
      info.accumulator + (e.toNanoSec - ms.toNanoSec) / 1000 ∧
    (accumUpdate ms info e).hitCount = info.hitCount + 1 ∧
    (e.toNanoSec - ms.toNanoSec < 1000 →
      (accumUpdate ms info e).accumulator = info.accumulator) ∧
    ((dtor ms tid info ri e).flushed = false →
      (dtor ms tid info ri e).info = accumUpdate ms info e) := by
  have hd : (0 : Int) ≤ e.toNanoSec - ms.toNanoSec := by omega
  refine ⟨?_, rfl, ?_, ?_⟩
  · unfold accumUpdate
    rw [tdiv_1000_eq_ediv hd]
  · intro hlt
    unfold accumUpdate
    rw [tdiv_1000_eq_ediv hd, Int.ediv_eq_zero_of_lt hd hlt]
    simp
  · intro hnf
    rw [dtor_eq] at hnf ⊢
    split at hnf
    · simp at hnf
    · next hcond => rw [if_neg hcond]

/-- C10 witness: a concrete guard spanning 600 nanoseconds contributes 0
microseconds while incrementing the hit count. -/
theorem dtor_adds_floor_micro_witness :
    (accumUpdate ⟨0, 100⟩ (initInfo "api") ⟨0, 700⟩).accumulator =
      (initInfo "api").accumulator +
        ((⟨0, 700⟩ : Timespec).toNanoSec - (⟨0, 100⟩ : Timespec).toNanoSec) / 1000 ∧
    (accumUpdate ⟨0, 100⟩ (initInfo "api") ⟨0, 700⟩).hitCount =
      (initInfo "api").hitCount + 1 ∧
    ((⟨0, 700⟩ : Timespec).toNanoSec - (⟨0, 100⟩ : Timespec).toNanoSec < 1000 →
      (accumUpdate ⟨0, 100⟩ (initInfo "api") ⟨0, 700⟩).accumulator =
        (initInfo "api").accumulator) ∧
    ((dtor ⟨0, 100⟩ 7 (initInfo "api") 0 ⟨0, 700⟩).flushed = false →
      (dtor ⟨0, 100⟩ 7 (initInfo "api") 0 ⟨0, 700⟩).info =
        accumUpdate ⟨0, 100⟩ (initInfo "api") ⟨0, 700⟩) :=
  dtor_adds_floor_micro ⟨0, 100⟩ 7 (initInfo "api") 0 ⟨0, 700⟩ (by decide)

/-- C3 counterexample: on the very first guard destruction of a freshly
created record (start 1000 ns, end 5000 ns) no output is emitted and
`lastReportTime` becomes the guard's start, but the destruction's effect
is not limited to that: `hitCount` changes from 0 to 1 and the
accumulator from 0 to 4, so "its only effect on the record is to set
lastReportTimestamp" is false at this input. -/
theorem first_dtor_not_only_lastReport :
    (dtor ⟨0, 1000⟩ 7 (initInfo "api") 0 ⟨0, 5000⟩).output = [] ∧
    (dtor ⟨0, 1000⟩ 7 (initInfo "api") 0 ⟨0, 5000⟩).info.lastReportTime = ⟨0, 1000⟩ ∧
    (initInfo "api").hitCount = 0 ∧
    (dtor ⟨0, 1000⟩ 7 (initInfo "api") 0 ⟨0, 5000⟩).info.hitCount = 1 ∧
    (initInfo "api").accumulator = 0 ∧
    (dtor ⟨0, 1000⟩ 7 (initInfo "api") 0 ⟨0, 5000⟩).info.accumulator = 4 := by
  decide

/-- C3 amended: the very first guard destruction on a freshly created
record never emits an output line; besides setting `lastReportTimestamp`
to the guard's start timestamp (which happens exactly when the flush
triggers, i.e. when the truncated microsecond count of the destruction
timestamp exceeds the current report interval; otherwise the sentinel is
kept), the destruction also increments `hitCount` to 1 and adds the
guard's elapsed delta to the accumulator. -/
theorem first_dtor_amended (ms : Timespec) (tid : Int) (name : String) (ri : Int)
    (e : Timespec) :
    (dtor ms tid (initInfo name) ri e).output = [] ∧
    (dtor ms tid (initInfo name) ri e).info.hitCount = 1 ∧
    (dtor ms tid (initInfo name) ri e).info.accumulator =
      (e.toNanoSec - ms.toNanoSec).tdiv 1000 ∧
    (dtor ms tid (initInfo name) ri e).info.name = name ∧
    (ri < e.toNanoSec.tdiv 1000 →
      (dtor ms tid (initInfo name) ri e).info.lastReportTime = ms) ∧
    (¬ri < e.toNanoSec.tdiv 1000 →
      (dtor ms tid (initInfo name) ri e).info.lastReportTime = ⟨0, 0⟩) := by
  have hdz : e.toNanoSec - (initInfo name).lastReportTime.toNanoSec = e.toNanoSec := by
    show e.toNanoSec - (0 * 1000000000 + 0) = e.toNanoSec
    omega
  by_cases hc : ri < e.toNanoSec.tdiv 1000
  · rw [dtor_flushed _ _ _ _ _ (by rw [hdz]; exact hc)]
    rw [Flush_sentinel _ _ _ _ _ ⟨rfl, rfl⟩]
    refine ⟨rfl, ?_, ?_, rfl, fun _ => rfl, fun hn => absurd hc hn⟩
    · show (initInfo name).hitCount + 1 = 1
      simp [initInfo]
    · show (initInfo name).accumulator + _ = _
      simp [initInfo]
  · rw [dtor_not_flushed _ _ _ _ _ (by rw [hdz]; exact hc)]
    refine ⟨rfl, ?_, ?_, rfl, fun hcc => absurd hcc hc, fun _ => rfl⟩
    · show (initInfo name).hitCount + 1 = 1
      simp [initInfo]
    · show (initInfo name).accumulator + _ = _
      simp [initInfo]

/-! ### No-flush runs (C1) -/

theorem step_not_flushed (tid : Int) (s : PState) (g : GuardEvent)
    (hf : (step tid s g).flushed = false) :
    step tid s g =
      { info := accumUpdate g.start s.info g.stop,
        reportInterval := s.reportInterval, flushed := false, output := [] } := by
  by_cases hc : (g.stop.toNanoSec - s.info.lastReportTime.toNanoSec).tdiv 1000 >
      s.reportInterval
  · unfold step at hf
    rw [dtor_flushed _ _ _ _ _ hc] at hf
    simp at hf
  · unfold step
    rw [dtor_not_flushed _ _ _ _ _ hc]

theorem noFlush_counts_aux (tid : Int) (gs : List GuardEvent) (s : PState)
    (h : noFlushRun tid gs s = true) :
    (runGuards tid gs s).1.info.accumulator =
      s.info.accumulator + (gs.map GuardEvent.delta).sum ∧
    (runGuards tid gs s).1.info.hitCount = s.info.hitCount + gs.length ∧
    (runGuards tid gs s).2 = [] := by
  induction gs generalizing s with
  | nil => simp [runGuards]
  | cons g gs ih =>
    unfold noFlushRun at h
    rw [Bool.and_eq_true] at h
    obtain ⟨h1, h2⟩ := h
    have hf : (step tid s g).flushed = false := by
      cases hfa : (step tid s g).flushed
      · rfl
      · rw [hfa] at h1; simp at h1
    have hs := step_not_flushed tid s g hf
    have hss : stepState tid s g =
        { info := accumUpdate g.start s.info g.stop, reportInterval := s.reportInterval } := by
      unfold stepState
      rw [hs]
    obtain ⟨ha, hh, ho⟩ := ih (stepState tid s g) h2
    refine ⟨?_, ?_, ?_⟩
    · show (runGuards tid gs (stepState tid s g)).1.info.accumulator = _
      rw [ha, hss]
      show (accumUpdate g.start s.info g.stop).accumulator + _ = _
      rw [List.map_cons, List.sum_cons]
      unfold accumUpdate GuardEvent.delta
      dsimp only
      omega
    · show (runGuards tid gs (stepState tid s g)).1.info.hitCount = _
      rw [hh, hss]
      show (accumUpdate g.start s.info g.stop).hitCount + _ = _
      rw [List.length_cons]
      unfold accumUpdate
      dsimp only
      omega
    · show (step tid s g).output ++ (runGuards tid gs (stepState tid s g)).2 = []
      rw [hs, ho]
      rfl

/-- C1: for every sequence of guard constructions/destructions on one
freshly defined record in which no destruction triggers `Flush`, the
record ends with `hitCount` equal to the number of guards and
`accumulatedDuration` equal to the sum of the individual elapsed deltas
(each delta being the code's truncated `(endNanoSec - startNanoSec) /
1000LL` of that guard). -/
theorem noFlush_run_counts (tid : Int) (name : String) (gs : List GuardEvent)
    (h : noFlushRun tid gs (initState name) = true) :
    (runGuards tid gs (initState name)).1.info.hitCount = gs.length ∧
    (runGuards tid gs (initState name)).1.info.accumulator =
      (gs.map GuardEvent.delta).sum := by
  obtain ⟨ha, hh, _⟩ := noFlush_counts_aux tid gs (initState name) h
  constructor
  · rw [hh]
    show (initInfo name).hitCount + _ = _
    simp [initInfo]
  · rw [ha]
    show (initInfo name).accumulator + _ = _
    simp [initInfo]

/-- C1 witness: two concrete sub-microsecond guards, neither triggering a
flush; the record ends with two hits and the (zero) sum of the two
truncated deltas. -/
theorem noFlush_run_counts_witness :
    (runGuards 7 [⟨⟨0, 100⟩, ⟨0, 400⟩⟩, ⟨⟨0, 450⟩, ⟨0, 999⟩⟩] (initState "api")).1.info.hitCount =
      ([⟨⟨0, 100⟩, ⟨0, 400⟩⟩, ⟨⟨0, 450⟩, ⟨0, 999⟩⟩] : List GuardEvent).length ∧
    (runGuards 7 [⟨⟨0, 100⟩, ⟨0, 400⟩⟩, ⟨⟨0, 450⟩, ⟨0, 999⟩⟩] (initState "api")).1.info.accumulator =
      (([⟨⟨0, 100⟩, ⟨0, 400⟩⟩, ⟨⟨0, 450⟩, ⟨0, 999⟩⟩] : List GuardEvent).map GuardEvent.delta).sum :=
  noFlush_run_counts 7 "api" [⟨⟨0, 100⟩, ⟨0, 400⟩⟩, ⟨⟨0, 450⟩, ⟨0, 999⟩⟩] (by decide)

/-! ### Flush resets and lastReportTime monotonicity (C5) -/

theorem Timespec.toNanoSec_nonneg {t : Timespec} (h : t.WF) : 0 ≤ t.toNanoSec := by
  obtain ⟨h1, h2, _⟩ := h
  unfold Timespec.toNanoSec
  have : 0 ≤ t.tv_sec * 1000000000 := by positivity
  omega

theorem lastReport_mono_step (tid : Int) (s : PState) (g : GuardEvent)
    (hInv : RIInv s) (hg : 0 ≤ g.start.toNanoSec) :
    s.info.lastReportTime.toNanoSec ≤ (stepState tid s g).info.lastReportTime.toNanoSec := by
  by_cases hc : (g.stop.toNanoSec - s.info.lastReportTime.toNanoSec).tdiv 1000 >
      s.reportInterval
  · unfold stepState step
    rw [dtor_flushed _ _ _ _ _ hc]
    by_cases hsen : (accumUpdate g.start s.info g.stop).lastReportTime.tv_sec = 0 ∧
        (accumUpdate g.start s.info g.stop).lastReportTime.tv_nsec = 0
    · rw [Flush_sentinel _ _ _ _ _ hsen]
      have h0 : s.info.lastReportTime.toNanoSec = 0 := by
        have h1 : s.info.lastReportTime.tv_sec = 0 := hsen.1
        have h2 : s.info.lastReportTime.tv_nsec = 0 := hsen.2
        unfold Timespec.toNanoSec
        rw [h1, h2]
        ring
      show s.info.lastReportTime.toNanoSec ≤ g.start.toNanoSec
      omega
    · rw [Flush_emit _ _ _ _ _ hsen]
      show s.info.lastReportTime.toNanoSec ≤ g.stop.toNanoSec
      have hri0 : 0 ≤ s.reportInterval := by rcases hInv.1 with h | h <;> omega
      have := le_of_tdiv_1000_gt hri0 hc
      omega
  · unfold stepState step
    rw [dtor_not_flushed _ _ _ _ _ hc]
    exact le_refl _

theorem lastReport_chain (tid : Int) (gs : List GuardEvent) (s : PState)
    (hInv : RIInv s) (hwf : ∀ g ∈ gs, 0 ≤ g.start.toNanoSec) :
    List.Chain'
      (fun a b => a.info.lastReportTime.toNanoSec ≤ b.info.lastReportTime.toNanoSec)
      (statesOf tid gs s) := by
  induction gs generalizing s with
  | nil => simp [statesOf, trailStates]
  | cons g gs ih =>
    have hrw : statesOf tid (g :: gs) s = s :: statesOf tid gs (stepState tid s g) := rfl
    rw [hrw]
    have hchain := ih (stepState tid s g) (RIInv_step tid s g hInv)
      (fun g' hg' => hwf g' (List.mem_cons_of_mem _ hg'))
    have hmono := lastReport_mono_step tid s g hInv (hwf g (List.mem_cons_self _ _))
    exact List.chain'_cons.mpr ⟨hmono, hchain⟩

/-- C5: an emitting flush (one on a record past its sentinel state)
produces output, resets the accumulator and hit count to zero and sets
`lastReportTime` to the flush's end timestamp; and along any run of
well-formed guard events from a fresh record, `lastReportTime` never
decreases — in particular no flush ever decreases it. -/
theorem flush_resets_and_lastReport_mono (tid : Int) (name : String)
    (gs : List GuardEvent) (hwf : ∀ g ∈ gs, g.WF) :
    (∀ (ms e : Timespec) (t ri : Int) (info : ThreadInfo),
      ¬(info.lastReportTime.tv_sec = 0 ∧ info.lastReportTime.tv_nsec = 0) →
        (Flush ms t info ri e).output ≠ [] ∧
        (Flush ms t info ri e).info.accumulator = 0 ∧
        (Flush ms t info ri e).info.hitCount = 0 ∧
        (Flush ms t info ri e).info.lastReportTime = e) ∧
    List.Chain'
      (fun a b => a.info.lastReportTime.toNanoSec ≤ b.info.lastReportTime.toNanoSec)
      (statesOf tid gs (initState name)) := by
  constructor
  · intro ms e t ri info hns
    rw [Flush_emit _ _ _ _ _ hns]
    exact ⟨by simp, rfl, rfl, rfl⟩
  · exact lastReport_chain tid gs (initState name) (RIInv_init name)
      (fun g hg => Timespec.toNanoSec_nonneg (hwf g hg).1)

/-- C5 witness: a concrete two-event run (a sentinel-setting flush, then
an emitting flush) along which `lastReportTime` is non-decreasing, and
the general emitting-flush reset property. -/
theorem flush_resets_and_lastReport_mono_witness :
    (∀ (ms e : Timespec) (t ri : Int) (info : ThreadInfo),
      ¬(info.lastReportTime.tv_sec = 0 ∧ info.lastReportTime.tv_nsec = 0) →
        (Flush ms t info ri e).output ≠ [] ∧
        (Flush ms t info ri e).info.accumulator = 0 ∧
        (Flush ms t info ri e).info.hitCount = 0 ∧
        (Flush ms t info ri e).info.lastReportTime = e) ∧
    List.Chain'
      (fun a b => a.info.lastReportTime.toNanoSec ≤ b.info.lastReportTime.toNanoSec)
      (statesOf 7 [⟨⟨0, 500000⟩, ⟨0, 600000⟩⟩, ⟨⟨2, 0⟩, ⟨2, 500000⟩⟩] (initState "api")) :=
  flush_resets_and_lastReport_mono 7 "api"
    [⟨⟨0, 500000⟩, ⟨0, 600000⟩⟩, ⟨⟨2, 0⟩, ⟨2, 500000⟩⟩] (by decide)

/-! ### The division in Flush is guarded (C4) -/

theorem Flush_reportInterval (ms : Timespec) (tid : Int) (info : ThreadInfo) (ri : Int)
    (e : Timespec) :
    (Flush ms tid info ri e).reportInterval =
      if ri = 0 then computedReportInterval else ri := by
  unfold Flush
  split <;> split <;> rfl

/-- C4: whenever a guard destruction on a state reachable from a fresh
record makes `Flush` reach its compute-and-emit division, the
(post-initialization) report interval equals 1000000 microseconds and the
emitted line's elapsed interval — the `double interval` divisor, as an
exact rational — exceeds it, which in turn is strictly positive: the
division is never by a zero interval. -/
theorem flush_division_positive (tid : Int) (name : String) (gs : List GuardEvent)
    (g : GuardEvent) (line : OutputLine)
    (hmem : line ∈ (step tid (runGuards tid gs (initState name)).1 g).output) :
    (step tid (runGuards tid gs (initState name)).1 g).reportInterval = 1000000 ∧
    ((step tid (runGuards tid gs (initState name)).1 g).reportInterval : ℚ) <
      line.intervalQ ∧
    (0 : ℚ) < ((step tid (runGuards tid gs (initState name)).1 g).reportInterval : ℚ) := by
  have hInv : RIInv (runGuards tid gs (initState name)).1 :=
    RIInv_run tid gs (initState name) (RIInv_init name)
  set s := (runGuards tid gs (initState name)).1 with hsdef
  by_cases hc : (g.stop.toNanoSec - s.info.lastReportTime.toNanoSec).tdiv 1000 >
      s.reportInterval
  · by_cases hsen : (accumUpdate g.start s.info g.stop).lastReportTime.tv_sec = 0 ∧
        (accumUpdate g.start s.info g.stop).lastReportTime.tv_nsec = 0
    · unfold step at hmem
      rw [dtor_flushed _ _ _ _ _ hc, Flush_sentinel _ _ _ _ _ hsen] at hmem
      simp at hmem
    · have hri : s.reportInterval = 1000000 := hInv.2 hsen
      have hflush : (Flush g.start tid (accumUpdate g.start s.info g.stop)
          s.reportInterval g.stop).reportInterval = 1000000 := by
        rw [Flush_reportInterval, hri]
        norm_num [computedReportInterval]
      have hstep_ri : (step tid s g).reportInterval = 1000000 := by
        unfold step
        rw [dtor_flushed _ _ _ _ _ hc]
        exact hflush
      have hout : (step tid s g).output =
          [{ tid := tid, name := (accumUpdate g.start s.info g.stop).name,
             measured := (accumUpdate g.start s.info g.stop).accumulator,
             intervalNanos :=
               (g.stop.tv_sec -
                   (accumUpdate g.start s.info g.stop).lastReportTime.tv_sec) * 1000000000 +
                 (g.stop.tv_nsec -
                   (accumUpdate g.start s.info g.stop).lastReportTime.tv_nsec),
             hitCount := (accumUpdate g.start s.info g.stop).hitCount }] := by
        unfold step
        rw [dtor_flushed _ _ _ _ _ hc]
        show (Flush g.start tid (accumUpdate g.start s.info g.stop)
          s.reportInterval g.stop).output = _
        rw [Flush_emit _ _ _ _ _ hsen]
      have hline := hmem
      rw [hout] at hline
      rw [List.mem_singleton] at hline
      have hnanos : line.intervalNanos =
          g.stop.toNanoSec - s.info.lastReportTime.toNanoSec := by
        rw [hline]
        show (g.stop.tv_sec - s.info.lastReportTime.tv_sec) * 1000000000 +
            (g.stop.tv_nsec - s.info.lastReportTime.tv_nsec) = _
        unfold Timespec.toNanoSec
        ring
      have hgt : 1000 * (1000000 + 1) ≤
          g.stop.toNanoSec - s.info.lastReportTime.toNanoSec := by
        rw [hri] at hc
        exact le_of_tdiv_1000_gt (by norm_num) hc
      refine ⟨hstep_ri, ?_, ?_⟩
      · rw [hstep_ri]
        unfold OutputLine.intervalQ
        rw [hnanos]
        rw [lt_div_iff₀ (by norm_num)]
        have hint : (1000000000 : Int) <
            g.stop.toNanoSec - s.info.lastReportTime.toNanoSec := by omega
        have hintQ : (1000000000 : ℚ) <
            (g.stop.toNanoSec : ℚ) - (s.info.lastReportTime.toNanoSec : ℚ) := by
          exact_mod_cast hint
        push_cast
        linarith
      · rw [hstep_ri]
        norm_num
  · unfold step at hmem
    rw [dtor_not_flushed _ _ _ _ _ hc] at hmem
    simp at hmem

/-- C4 witness: a concrete reachable state (one warming event) and a
second guard whose destruction emits; the division's divisor, two seconds
elapsed, exceeds the one-second report interval. -/
theorem flush_division_positive_witness :
    (step 7 (runGuards 7 [⟨⟨0, 500000⟩, ⟨0, 600000⟩⟩] (initState "api")).1
        ⟨⟨2, 0⟩, ⟨2, 500000⟩⟩).reportInterval = 1000000 ∧
    ((step 7 (runGuards 7 [⟨⟨0, 500000⟩, ⟨0, 600000⟩⟩] (initState "api")).1
        ⟨⟨2, 0⟩, ⟨2, 500000⟩⟩).reportInterval : ℚ) <
      OutputLine.intervalQ
        { tid := 7, name := "api", measured := 600, intervalNanos := 2000000000,
          hitCount := 2 } ∧
    (0 : ℚ) < ((step 7 (runGuards 7 [⟨⟨0, 500000⟩, ⟨0, 600000⟩⟩] (initState "api")).1
        ⟨⟨2, 0⟩, ⟨2, 500000⟩⟩).reportInterval : ℚ) :=
  flush_division_positive 7 "api" [⟨⟨0, 500000⟩, ⟨0, 600000⟩⟩] ⟨⟨2, 0⟩, ⟨2, 500000⟩⟩
    { tid := 7, name := "api", measured := 600, intervalNanos := 2000000000, hitCount := 2 }
    (by decide)

/-! ### The report interval is computed at most once (C6) -/

/-- C6: `s_reportInterval` is immutable once non-zero: neither `Flush`
nor a whole guard destruction changes a non-zero value; the only value
ever assigned is `computedReportInterval`, which is exactly 1e6
microseconds-per-second times the fixed 1-real-second target
`APIProfiler_ReportIntervalSecs`. -/
theorem reportInterval_write_once (ms : Timespec) (tid : Int) (info : ThreadInfo)
    (ri : Int) (e : Timespec) :
    (ri ≠ 0 → (Flush ms tid info ri e).reportInterval = ri) ∧
    (ri ≠ 0 → (dtor ms tid info ri e).reportInterval = ri) ∧
    (Flush ms tid info 0 e).reportInterval = computedReportInterval ∧
    (computedReportInterval : ℚ) = 1000000 * APIProfiler_ReportIntervalSecs := by
  refine ⟨?_, ?_, ?_, ?_⟩
  · intro h
    rw [Flush_reportInterval, if_neg h]
  · intro h
    rw [dtor_eq]
    split
    · show (Flush ms tid (accumUpdate ms info e) ri e).reportInterval = ri
      rw [Flush_reportInterval, if_neg h]
    · rfl
  · rw [Flush_reportInterval, if_pos rfl]
  · norm_num [computedReportInterval, APIProfiler_ReportIntervalSecs]

/-! ### The printf line format (C7) -/

/-- Sanity: for a positive denominator `roundOfDiv` is the rounding
(half-up) of the exact rational quotient. -/
theorem roundOfDiv_eq_round {num den : Int} (h : 0 < den) :
    roundOfDiv num den = round ((num : ℚ) / (den : ℚ)) := by
  have hden : ((den : ℚ)) ≠ 0 := by positivity
  rw [round_eq]
  unfold roundOfDiv
  have hx : (num : ℚ) / (den : ℚ) + 1 / 2 = ((2 * num + den : Int) : ℚ) / ((2 * den : Int) : ℚ) := by
    push_cast
    field_simp
    ring
  have hD : ((2 * den).toNat : Int) = 2 * den := Int.toNat_of_nonneg (by omega)
  have hcast : ((2 * den : Int) : ℚ) = (((2 * den).toNat : ℕ) : ℚ) := by
    rw [← hD]
    norm_cast
  rw [hx, hcast, Rat.floor_intCast_div_natCast, hD]

/-- C7: every emitted flush line renders with the exact field order and
units of the source's printf template: the calling thread id, the literal
`time spent in "<name>"` with the record's name, the measured and
interval durations as `measured/interval microsec`, the percentage
`100 * measured / interval` followed by `%`, and the hit count followed
by `x`; and the emitted fields are exactly the pre-reset record values
(`measured` the accumulator, the hit count, the name) with the percentage
equal to `100 * measured / interval`. -/
theorem flush_output_format (ms : Timespec) (tid : Int) (info : ThreadInfo) (ri : Int)
    (e : Timespec)
    (h : ¬(info.lastReportTime.tv_sec = 0 ∧ info.lastReportTime.tv_nsec = 0)) :
    ((Flush ms tid info ri e).output.map renderLine) =
      ["TID " ++ toString tid ++ " time spent in \"" ++ info.name ++ "\": " ++
        toString info.accumulator ++ "/" ++
        fmtF0 ((e.tv_sec - info.lastReportTime.tv_sec) * 1000000000 +
          (e.tv_nsec - info.lastReportTime.tv_nsec)) 1000 ++ " microsec " ++
        fmtF1 (100000 * info.accumulator)
          ((e.tv_sec - info.lastReportTime.tv_sec) * 1000000000 +
            (e.tv_nsec - info.lastReportTime.tv_nsec)) ++ "% " ++
        toString info.hitCount ++ "x\n"] ∧
    (∀ l ∈ (Flush ms tid info ri e).output,
      l.percentQ = 100 * (info.accumulator : ℚ) / l.intervalQ ∧
      l.measured = info.accumulator ∧ l.hitCount = info.hitCount ∧
      l.name = info.name ∧ l.tid = tid) := by
  rw [Flush_emit _ _ _ _ _ h]
  constructor
  · rfl
  · intro l hl
    rw [List.mem_singleton] at hl
    subst hl
    exact ⟨rfl, rfl, rfl, rfl, rfl⟩

/-- C7 witness: a concrete emitting flush (600 accumulated microseconds
over a 2-second interval, 2 hits) rendered through the printf template. -/
theorem flush_output_format_witness :
    ((Flush ⟨0, 0⟩ 7 (⟨⟨1, 0⟩, 600, 2, "api"⟩ : ThreadInfo) 1000000 ⟨3, 0⟩).output.map
        renderLine) =
      ["TID " ++ toString (7 : Int) ++ " time spent in \"" ++ "api" ++ "\": " ++
        toString (600 : Int) ++ "/" ++
        fmtF0 (((3 : Int) - 1) * 1000000000 + ((0 : Int) - 0)) 1000 ++ " microsec " ++
        fmtF1 (100000 * 600) (((3 : Int) - 1) * 1000000000 + ((0 : Int) - 0)) ++ "% " ++
        toString (2 : Int) ++ "x\n"] ∧
    (∀ l ∈ (Flush ⟨0, 0⟩ 7 (⟨⟨1, 0⟩, 600, 2, "api"⟩ : ThreadInfo) 1000000 ⟨3, 0⟩).output,
      l.percentQ = 100 * ((600 : Int) : ℚ) / l.intervalQ ∧
      l.measured = 600 ∧ l.hitCount = 2 ∧ l.name = "api" ∧ l.tid = 7) :=
  flush_output_format ⟨0, 0⟩ 7 (⟨⟨1, 0⟩, 600, 2, "api"⟩ : ThreadInfo) 1000000 ⟨3, 0⟩
    (by decide)

/-! ### The first-call flush path keeps the counters (C9) -/

/-- C9: when `Flush` takes the first-call (sentinel) path it returns
before the reset step, so the record's accumulator and hit count are left
unchanged — including the contribution of the guard whose destruction
triggered this flush — and those values carry into the first later report
that emits: a fresh record whose first destruction triggers the sentinel
flush and whose second destruction emits produces exactly one line, with
measured value the sum of both guards' deltas and hit count 2. -/
theorem sentinel_flush_keeps_counters (tid : Int) (name : String) (g1 g2 : GuardEvent)
    (h1 : 0 < g1.stop.toNanoSec.tdiv 1000)
    (hs : ¬(g1.start.tv_sec = 0 ∧ g1.start.tv_nsec = 0))
    (h2 : 1000000 < (g2.stop.toNanoSec - g1.start.toNanoSec).tdiv 1000) :
    (∀ (ms e : Timespec) (t ri : Int) (info : ThreadInfo),
      info.lastReportTime.tv_sec = 0 ∧ info.lastReportTime.tv_nsec = 0 →
        (Flush ms t info ri e).info.accumulator = info.accumulator ∧
        (Flush ms t info ri e).info.hitCount = info.hitCount ∧
        (Flush ms t info ri e).output = []) ∧
    (runGuards tid [g1, g2] (initState name)).2 =
      [⟨tid, name, g1.delta + g2.delta,
        (g2.stop.tv_sec - g1.start.tv_sec) * 1000000000 +
          (g2.stop.tv_nsec - g1.start.tv_nsec), 2⟩] := by
  constructor
  · intro ms e t ri info hsen
    rw [Flush_sentinel _ _ _ _ _ hsen]
    exact ⟨rfl, rfl, rfl⟩
  · have hc1 : (g1.stop.toNanoSec -
        (initState name).info.lastReportTime.toNanoSec).tdiv 1000 >
        (initState name).reportInterval := by
      show (g1.stop.toNanoSec - (0 * 1000000000 + 0)).tdiv 1000 > 0
      have hz : g1.stop.toNanoSec - (0 * 1000000000 + 0) = g1.stop.toNanoSec := by ring
      rw [hz]
      exact h1
    have hout1 : (step tid (initState name) g1).output = [] := by
      unfold step
      rw [dtor_flushed _ _ _ _ _ hc1]
      show (Flush g1.start tid (accumUpdate g1.start (initInfo name) g1.stop)
        (initState name).reportInterval g1.stop).output = []
      rw [Flush_sentinel _ _ _ _ _ ⟨rfl, rfl⟩]
    have hstep1i : (step tid (initState name) g1).info =
        ⟨g1.start, g1.delta, 1, name⟩ := by
      unfold step
      rw [dtor_flushed _ _ _ _ _ hc1]
      show (Flush g1.start tid (accumUpdate g1.start (initInfo name) g1.stop)
        (initState name).reportInterval g1.stop).info = _
      rw [Flush_sentinel _ _ _ _ _ ⟨rfl, rfl⟩]
      simp [accumUpdate, initInfo, GuardEvent.delta]
    have hstep1r : (step tid (initState name) g1).reportInterval = 1000000 := by
      unfold step
      rw [dtor_flushed _ _ _ _ _ hc1]
      show (Flush g1.start tid (accumUpdate g1.start (initInfo name) g1.stop)
        (initState name).reportInterval g1.stop).reportInterval = _
      rw [Flush_reportInterval]
      rfl
    have hs1 : stepState tid (initState name) g1 =
        ⟨⟨g1.start, g1.delta, 1, name⟩, 1000000⟩ := by
      unfold stepState
      rw [hstep1i, hstep1r]
    have hc2 : (g2.stop.toNanoSec -
        ((⟨⟨g1.start, g1.delta, 1, name⟩, 1000000⟩ : PState)).info.lastReportTime.toNanoSec).tdiv
          1000 > ((⟨⟨g1.start, g1.delta, 1, name⟩, 1000000⟩ : PState)).reportInterval := by
      show (g2.stop.toNanoSec - g1.start.toNanoSec).tdiv 1000 > 1000000
      exact h2
    have hstep2o : (step tid (⟨⟨g1.start, g1.delta, 1, name⟩, 1000000⟩ : PState) g2).output =
        [⟨tid, name, g1.delta + g2.delta,
          (g2.stop.tv_sec - g1.start.tv_sec) * 1000000000 +
            (g2.stop.tv_nsec - g1.start.tv_nsec), 2⟩] := by
      unfold step
      rw [dtor_flushed _ _ _ _ _ hc2]
      show (Flush g2.start tid
        (accumUpdate g2.start (⟨g1.start, g1.delta, 1, name⟩ : ThreadInfo) g2.stop)
        1000000 g2.stop).output = _
      rw [Flush_emit _ _ _ _ _ hs]
      rfl
    have hsplit : (runGuards tid [g1, g2] (initState name)).2 =
        (step tid (initState name) g1).output ++
          ((step tid (stepState tid (initState name) g1) g2).output ++ []) := rfl
    rw [hsplit, hout1, hs1, hstep2o]
    simp

/-- C9 witness: concrete two-guard run — a 100 microsecond guard ending
0.6 ms after boot (sentinel flush), then a 500 microsecond guard ending
two seconds later (emitting flush); the emitted line reports 600
microseconds measured and 2 hits. -/
theorem sentinel_flush_keeps_counters_witness :
    (∀ (ms e : Timespec) (t ri : Int) (info : ThreadInfo),
      info.lastReportTime.tv_sec = 0 ∧ info.lastReportTime.tv_nsec = 0 →
        (Flush ms t info ri e).info.accumulator = info.accumulator ∧
        (Flush ms t info ri e).info.hitCount = info.hitCount ∧
        (Flush ms t info ri e).output = []) ∧
    (runGuards 7 [⟨⟨0, 500000⟩, ⟨0, 600000⟩⟩, ⟨⟨2, 0⟩, ⟨2, 500000⟩⟩] (initState "api")).2 =
      [⟨7, "api",
        GuardEvent.delta ⟨⟨0, 500000⟩, ⟨0, 600000⟩⟩ +
          GuardEvent.delta ⟨⟨2, 0⟩, ⟨2, 500000⟩⟩,
        ((2 : Int) - 0) * 1000000000 + ((500000 : Int) - 500000), 2⟩] :=
  sentinel_flush_keeps_counters 7 "api" ⟨⟨0, 500000⟩, ⟨0, 600000⟩⟩ ⟨⟨2, 0⟩, ⟨2, 500000⟩⟩
    (by decide) (by decide) (by decide)

/-! ### The build-time enable flag (C8) -/

/-- C8: with the build-time flag disabled every construct expands to
nothing, and a disabled program changes no state and emits no output —
it is observationally equivalent to the empty (uninstrumented) program. -/
theorem disabled_profiler_noop (tid : Int) (prog : List Construct) (s : SysState) :
    (∀ c : Construct, expandConstruct false c = []) ∧
    runProgram false tid prog s = (s, []) ∧
    runProgram false tid prog s = runProgram true tid [] s := by
  have hexp : ∀ c : Construct, expandConstruct false c = [] := by
    intro c
    cases c <;> rfl
  have hflat : ((prog.map (expandConstruct false)).flatten : List RtAction) = [] := by
    induction prog with
    | nil => rfl
    | cons c cs ih =>
      rw [List.map_cons, List.flatten_cons, hexp c, ih]
      rfl
  refine ⟨hexp, ?_, ?_⟩
  · unfold runProgram
    rw [hflat]
    rfl
  · unfold runProgram
    rw [hflat]
    rfl
